import Mathlib

/-!
Shallow embedding of the Faculty Class Recording System
(src/project7_backend.py and src/project7_database.py).

Modelling conventions:
* Machine-level details irrelevant to the claims are abstracted: dates and
  times are natural numbers, Whisper timestamps are natural numbers,
  confidences are rationals.
* The PostgreSQL store is a `DBState`: a list of `recordings` rows, a list
  of `transcripts` rows and the next serial id.
* The filesystem is the list of paths of the files that currently exist.
* The Flask process state (`recording_active`, `current_recording`, the
  database, the filesystem) is a `SysState`.
* Each Flask route handler is a pure function from a `SysState` and the
  request inputs to an `ApiResult` (HTTP status code plus body) and the
  successor state.  External effects (the database connection failing,
  ffmpeg failing, Whisper and GPT outputs) are oracle parameters.
* `Database.create_recording` and the other `Database` methods swallow
  every exception and return `None` / `False`; the `dbFail` oracle selects
  that branch.
-/

/-- Recording row of the `recordings` table.  Nullable SQL columns are
`Option`; `date`, `start_time`, `end_time` and `duration` are abstracted
to naturals; `key_points` is a nullable text array. -/
structure Recording where
  id : Nat
  faculty_id : String
  faculty_name : Option String
  subject : String
  date : Nat
  start_time : Nat
  end_time : Option Nat
  duration : Option Nat
  status : String
  video_path : Option String
  transcript_path : Option String
  transcript_text : Option String
  summary : Option String
  key_points : Option (List String)
  deriving DecidableEq

/-- Row of the `transcripts` table (one timed transcript segment). -/
structure TranscriptSegment where
  recording_id : Nat
  timestamp_start : Nat
  timestamp_end : Nat
  text : String
  confidence : ℚ
  deriving DecidableEq

/-- One segment of a Whisper transcription result: the dictionary
`{start, end, text, confidence?}` of the source (`end` is a Lean keyword,
hence `seg_start` / `seg_end`). -/
structure WhisperSegment where
  seg_start : Nat
  seg_end : Nat
  text : String
  confidence : Option ℚ
  deriving DecidableEq

/-- In-memory `RecordingSession` object (backend lines 48-55).
`recording_id` is `Option` because `db.create_recording` may return
`None`. -/
structure RecordingSession where
  recording_id : Option Nat
  faculty_id : String
  subject : String
  start_time : Nat
  video_path : Option String
  audio_path : Option String
  deriving DecidableEq

/-- State of the PostgreSQL database. -/
structure DBState where
  recordings : List Recording
  transcripts : List TranscriptSegment
  nextId : Nat
  deriving DecidableEq

/-- Whole process state: the module-level globals of the backend plus the
database and the filesystem (`fs` is the list of existing file paths). -/
structure SysState where
  recording_active : Bool
  current_recording : Option RecordingSession
  db : DBState
  fs : List String
  deriving DecidableEq

/-- HTTP response of a route: `ok code body` for the success shape,
`err code msg` for the `{'error': msg}` shape. -/
inductive ApiResult (α : Type) where
  | ok (code : Nat) (body : α)
  | err (code : Nat) (msg : String)
  deriving DecidableEq

/-- Python truthiness of an optional string: `None` and `''` are falsy. -/
def truthyStr : Option String → Bool
  | none => false
  | some s => s != ""

/-- Fresh process over an empty database: the module-level initialisation
`recording_active = False`, `current_recording = None`. -/
def initState : SysState :=
  { recording_active := false
    current_recording := none
    db := { recordings := [], transcripts := [], nextId := 1 }
    fs := [] }

/-- SQL `LIKE` pattern matching over characters, PostgreSQL semantics:
`%` matches any sequence, `_` matches a single character, `\` escapes the
next pattern character (a pattern consisting of a dangling escape matches
nothing; PostgreSQL raises an error there, and the patterns this program
builds always end in `%`, so that case is unreachable).  The pattern is
peeled two characters at a time so the recursion is structural and the
kernel can evaluate it. -/
def likeMatches : List Char → List Char → Bool
  | [] => fun s => s.isEmpty
  | [p] => fun s =>
    if p = '%' then true
    else if p = '_' then
      match s with
      | [_] => true
      | _ => false
    else if p = '\\' then false
    else
      match s with
      | [d] => p == d
      | _ => false
  | p :: p2 :: ps => fun s =>
    if p = '%' then
      s.tails.any (fun t => likeMatches (p2 :: ps) t)
    else if p = '_' then
      match s with
      | [] => false
      | _ :: s' => likeMatches (p2 :: ps) s'
    else if p = '\\' then
      match s with
      | [] => false
      | d :: s' => p2 == d && likeMatches ps s'
    else
      match s with
      | [] => false
      | d :: s' => p == d && likeMatches (p2 :: ps) s'

/-- Denotation of the SQL condition `s ILIKE '%' || q || '%'` used by
`search_recordings` (database lines 255-268): both sides are lower-cased
character by character and the query is wrapped in `%` wildcards.
(`String.toLower` is exactly `String.map Char.toLower`; the characters
are lowered on the `data` list directly so the kernel can evaluate.) -/
def ilikeContains (s q : String) : Bool :=
  likeMatches ('%' :: (q.data.map Char.toLower ++ ['%'])) (s.data.map Char.toLower)

/-- `ILIKE` applied to a nullable column: SQL `NULL ILIKE p` is not true. -/
def optIlike : Option String → String → Bool
  | none, _ => false
  | some s, q => ilikeContains s q

/-- Ascending order on segment start times (`ORDER BY timestamp_start`). -/
def segLE (a b : TranscriptSegment) : Prop :=
  a.timestamp_start ≤ b.timestamp_start

instance : DecidableRel segLE :=
  fun a b => inferInstanceAs (Decidable (a.timestamp_start ≤ b.timestamp_start))

instance : IsTotal TranscriptSegment segLE :=
  ⟨fun a b => Nat.le_total a.timestamp_start b.timestamp_start⟩

instance : IsTrans TranscriptSegment segLE :=
  ⟨fun _ _ _ h h' => Nat.le_trans h h'⟩

/-- Descending order on recording dates (`ORDER BY date DESC`). -/
def dateGE (a b : Recording) : Prop :=
  b.date ≤ a.date

instance : DecidableRel dateGE :=
  fun a b => inferInstanceAs (Decidable (b.date ≤ a.date))

instance : IsTotal Recording dateGE :=
  ⟨fun a b => Nat.le_total b.date a.date⟩

instance : IsTrans Recording dateGE :=
  ⟨fun _ _ _ h h' => Nat.le_trans h' h⟩

namespace Database

/-- `Database.create_recording` (database lines 33-65): inserts a row with
status `'recording'` and returns the new serial id; on any exception the
error is printed and `None` is returned (oracle `dbFail`). -/
def create_recording (db : DBState) (faculty_id : String)
    (faculty_name : Option String) (subject : String)
    (now_date now_time : Nat) (dbFail : Bool) : Option Nat × DBState :=
  if dbFail then (none, db)
  else
    let r : Recording :=
      { id := db.nextId
        faculty_id := faculty_id
        faculty_name := faculty_name
        subject := subject
        date := now_date
        start_time := now_time
        end_time := none
        duration := none
        status := "recording"
        video_path := none
        transcript_path := none
        transcript_text := none
        summary := none
        key_points := none }
    (some db.nextId,
      { db with recordings := db.recordings ++ [r], nextId := db.nextId + 1 })

/-- `Database.update_recording_status` (lines 67-95): sets status,
video_path, duration and end_time of the row with the given id; returns
`False` and changes nothing on exception. -/
def update_recording_status (db : DBState) (rid : Nat) (status : String)
    (video_path : String) (duration end_time : Nat) (dbFail : Bool) :
    Bool × DBState :=
  if dbFail then (false, db)
  else
    (true,
      { db with recordings := db.recordings.map (fun r =>
          if r.id == rid then
            { r with status := status, video_path := some video_path,
                     duration := some duration, end_time := some end_time }
          else r) })

/-- `Database.update_recording_transcript` (lines 97-119). -/
def update_recording_transcript (db : DBState) (rid : Nat)
    (transcript_path transcript_text : String) (dbFail : Bool) :
    Bool × DBState :=
  if dbFail then (false, db)
  else
    (true,
      { db with recordings := db.recordings.map (fun r =>
          if r.id == rid then
            { r with transcript_path := some transcript_path,
                     transcript_text := some transcript_text }
          else r) })

/-- `Database.update_recording_summary` (lines 121-143). -/
def update_recording_summary (db : DBState) (rid : Nat) (summary : String)
    (key_points : List String) (dbFail : Bool) : Bool × DBState :=
  if dbFail then (false, db)
  else
    (true,
      { db with recordings := db.recordings.map (fun r =>
          if r.id == rid then
            { r with summary := some summary, key_points := some key_points }
          else r) })

/-- `Database.add_transcript_segment` (lines 145-166): inserts one row
into `transcripts`. -/
def add_transcript_segment (db : DBState) (rid : Nat)
    (start_time end_time : Nat) (text : String) (confidence : ℚ)
    (dbFail : Bool) : Bool × DBState :=
  if dbFail then (false, db)
  else
    (true,
      { db with transcripts := db.transcripts ++
          [{ recording_id := rid, timestamp_start := start_time,
             timestamp_end := end_time, text := text,
             confidence := confidence }] })

/-- `Database.get_recording` (lines 168-188):
`SELECT * FROM recordings WHERE id = %s`, first row or `None`. -/
def get_recording (db : DBState) (rid : Nat) : Option Recording :=
  db.recordings.find? (fun r => r.id == rid)

/-- Rows of `transcripts` belonging to one recording, in table order. -/
def segsFor (db : DBState) (rid : Nat) : List TranscriptSegment :=
  db.transcripts.filter (fun t => t.recording_id == rid)

/-- `Database.get_transcript_segments` (lines 225-247):
`SELECT * FROM transcripts WHERE recording_id = %s ORDER BY
timestamp_start`. -/
def get_transcript_segments (db : DBState) (rid : Nat) :
    List TranscriptSegment :=
  List.insertionSort segLE (segsFor db rid)

/-- Left-join rows of one recording with its transcripts
(`LEFT JOIN transcripts t ON r.id = t.recording_id`): a recording with no
segments yields the single row with `NULL` on the right. -/
def joinRows (db : DBState) (r : Recording) : List (Option TranscriptSegment) :=
  if (segsFor db r.id).isEmpty then [none] else (segsFor db r.id).map some

/-- The `WHERE` disjunction of `search_recordings` evaluated on one joined
row: `subject ILIKE p OR summary ILIKE p OR transcript_text ILIKE p OR
t.text ILIKE p` with `p = '%' || q || '%'`. -/
def rowMatches (q : String) (r : Recording)
    (t : Option TranscriptSegment) : Bool :=
  ilikeContains r.subject q || optIlike r.summary q ||
    optIlike r.transcript_text q ||
    (match t with
     | none => false
     | some seg => ilikeContains seg.text q)

/-- `Database.search_recordings` (lines 249-279) as the denotation of
`SELECT DISTINCT r.* FROM recordings r LEFT JOIN transcripts t ... WHERE
<disjunction> ORDER BY r.date DESC LIMIT 20`: a recording row is selected
iff some of its joined rows satisfies the disjunction (the `DISTINCT`
collapses the duplicates the join introduces), the selected rows are
ordered by date descending and the first 20 are returned. -/
def search_recordings (db : DBState) (q : String) : List Recording :=
  (List.insertionSort dateGE
    (db.recordings.filter (fun r => (joinRows db r).any (rowMatches q r)))).take 20

/-- `Database.delete_recording` (lines 281-301): deletes the transcript
rows of the recording, then the recording row; swallows exceptions. -/
def delete_recording (db : DBState) (rid : Nat) (dbFail : Bool) :
    Bool × DBState :=
  if dbFail then (false, db)
  else
    (true,
      { db with
          transcripts := db.transcripts.filter (fun t => !(t.recording_id == rid))
          recordings := db.recordings.filter (fun r => !(r.id == rid)) })

end Database

/-- `start_recording` route (backend lines 128-166): refuses when a
recording is already active, validates the fields by Python truthiness,
creates the row (id may be `None` on a swallowed database error), builds
the `RecordingSession`, sets the shared flag and reports success.  The
spawned capture thread is modelled by the separate capture operations. -/
def start_recording (st : SysState)
    (faculty_id faculty_name subject : Option String)
    (dbFail : Bool) (now_date now_time : Nat) :
    ApiResult (Option Nat) × SysState :=
  if st.recording_active then
    (.err 400 "Recording already in progress", st)
  else if !truthyStr faculty_id || !truthyStr subject then
    (.err 400 "Faculty ID and subject required", st)
  else
    let fid := faculty_id.getD ""
    let subj := subject.getD ""
    let res :=
      Database.create_recording st.db fid faculty_name subj now_date now_time dbFail
    let sess : RecordingSession :=
      { recording_id := res.1, faculty_id := fid, subject := subj,
        start_time := now_time, video_path := none, audio_path := none }
    (.ok 200 res.1,
      { st with db := res.2, current_recording := some sess,
                recording_active := true })

/-- `stop_recording` route (backend lines 168-190): refuses when nothing
is active, otherwise clears the flag, joins the thread (no state effect)
and answers with the current session id.  The session object is NOT
cleared. -/
def stop_recording (st : SysState) : ApiResult (Option Nat) × SysState :=
  if !st.recording_active then
    (.err 400 "No active recording", st)
  else
    let st2 := { st with recording_active := false }
    (.ok 200 (st2.current_recording.bind (fun s => s.recording_id)), st2)

/-- `transcribe_recording` route (backend lines 192-250).  When
`video_path` is SQL `NULL`, `os.path.exists(None)` raises `TypeError`
(caught only by the generic handler, hence HTTP 500); a set path that
does not exist yields the 404.  `ffmpegOk` and `whisper` are the
external-effect oracles; the database calls on the success path are
modelled as succeeding (their swallowed failures would only write less,
which no claim depends on). -/
def transcribe_recording (st : SysState) (rid : Nat) (ffmpegOk : Bool)
    (whisper : Option (String × List WhisperSegment)) :
    ApiResult (String × Nat) × SysState :=
  match Database.get_recording st.db rid with
  | none => (.err 404 "Recording not found", st)
  | some recd =>
    match recd.video_path with
    | none =>
      (.err 500 "stat: path should be string, bytes, os.PathLike or integer, not NoneType", st)
    | some vp =>
      if !st.fs.contains vp then
        (.err 404 "Video file not found", st)
      else if !ffmpegOk then
        (.err 500 "ffmpeg audio extraction failed", st)
      else
        match whisper with
        | none => (.err 500 "whisper transcription failed", st)
        | some (text, segs) =>
          let audio_path := vp.replace ".mp4" ".wav"
          let transcript_path := "transcripts/transcript_" ++ toString rid ++ ".txt"
          let fs1 := transcript_path :: audio_path :: st.fs
          let db1 := segs.foldl (fun d sg =>
            (Database.add_transcript_segment d rid sg.seg_start sg.seg_end
              sg.text (sg.confidence.getD (9/10)) false).2) st.db
          let db2 := (Database.update_recording_transcript db1 rid
            transcript_path text false).2
          let fs2 := fs1.filter (fun p => p != audio_path)
          (.ok 200 (text, segs.length), { st with db := db2, fs := fs2 })

/-- Predicate for the characters Python `line.strip('- ')` removes. -/
def isDashSpace (c : Char) : Bool := c == '-' || c == ' '

/-- Python `line.strip('- ')`: drop leading and trailing characters drawn
from the set `{'-', ' '}`. -/
def stripDashSpace (s : String) : String :=
  String.mk (((s.data.dropWhile isDashSpace).reverse.dropWhile isDashSpace).reverse)

/-- `summarize_lecture` route (backend lines 252-303): 404 when the id is
unknown, 400 (and no write) when `transcript_text` is `NULL` or empty,
otherwise the GPT output (oracle `gpt`, `none` = upstream failure) is
stored together with the bullet lines parsed out of it. -/
def summarize_lecture (st : SysState) (rid : Nat) (gpt : Option String) :
    ApiResult (String × List String) × SysState :=
  match Database.get_recording st.db rid with
  | none => (.err 404 "Recording not found", st)
  | some recd =>
    if !truthyStr recd.transcript_text then
      (.err 400 "Transcript not available. Please transcribe first.", st)
    else
      match gpt with
      | none => (.err 500 "openai request failed", st)
      | some summary =>
        let lines := summary.splitOn "\n"
        let key_points :=
          (lines.filter (fun l => l.trim.startsWith "-")).map stripDashSpace
        let db2 := (Database.update_recording_summary st.db rid summary
          key_points false).2
        (.ok 200 (summary, key_points), { st with db := db2 })

/-- `get_recording` route (backend lines 323-339): the row joined with its
segments ordered by start time, or 404. -/
def get_recording (st : SysState) (rid : Nat) :
    ApiResult (Recording × List TranscriptSegment) × SysState :=
  match Database.get_recording st.db rid with
  | none => (.err 404 "Recording not found", st)
  | some recd =>
    (.ok 200 (recd, Database.get_transcript_segments st.db rid), st)

/-- `search_lectures` route (backend lines 341-361): 400 on an empty (or
absent) query, otherwise the database keyword search. -/
def search_lectures (st : SysState) (query : Option String) :
    ApiResult (List Recording) × SysState :=
  if query.getD "" = "" then (.err 400 "Query required", st)
  else (.ok 200 (Database.search_recordings st.db (query.getD "")), st)

/-- Python `if path and os.path.exists(path): os.remove(path)` for an
optional path over the modelled filesystem. -/
def removeIfExists (fs : List String) (p : Option String) : List String :=
  match p with
  | none => fs
  | some q => if q != "" && fs.contains q then fs.filter (fun x => x != q) else fs

/-- `delete_recording` route (backend lines 363-385): 404 when the id is
unknown, otherwise the video and transcript files are removed when set
and existing, then the database rows are deleted. -/
def delete_recording (st : SysState) (rid : Nat) (dbFail : Bool) :
    ApiResult String × SysState :=
  match Database.get_recording st.db rid with
  | none => (.err 404 "Recording not found", st)
  | some recd =>
    let fs2 := removeIfExists (removeIfExists st.fs recd.video_path)
      recd.transcript_path
    let db2 := (Database.delete_recording st.db rid dbFail).2
    (.ok 200 "Recording deleted successfully", { st with fs := fs2, db := db2 })

/-- Line 75 of the capture thread: the video writer creates the output
file and `current_recording.video_path` is assigned.  When
`current_recording` is `None` the attribute access raises and the
`except` branch clears the flag. -/
def capture_set_video_path (st : SysState) (path : String) : SysState :=
  match st.current_recording with
  | none => { st with recording_active := false }
  | some s =>
    { st with current_recording := some { s with video_path := some path },
              fs := path :: st.fs }

/-- Normal termination of the capture loop (backend lines 97-112): the
device and the writer are released and the row is updated to status
`'completed'` with path, duration and end time.  The flag is NOT touched
on this path (the loop may also end on device end-of-stream). -/
def capture_loop_finish (st : SysState) (rid : Nat) (video_path : String)
    (duration end_time : Nat) (dbFail : Bool) : SysState :=
  { st with db := (Database.update_recording_status st.db rid "completed"
      video_path duration end_time dbFail).2 }

/-- Exceptional termination of the capture loop (backend lines 114-116):
the exception is printed, `recording_active` is set to `False` and the
database is not touched. -/
def capture_loop_fail (st : SysState) : SysState :=
  { st with recording_active := false }

/-- One externally triggered transition of the system: a state-affecting
route invocation with its request data and external-effect oracles, or a
capture-thread transition.  The read-only routes (`health_check`,
`get_recordings`, `get_recording`, `search_lectures`, `stream_video`)
never modify the state; `getRec` and `searchQ` stand in for all of them. -/
inductive Op where
  | start (faculty_id faculty_name subject : Option String)
      (dbFail : Bool) (now_date now_time : Nat)
  | stop
  | captureSetPath (path : String)
  | captureFinish (rid : Nat) (video_path : String)
      (duration end_time : Nat) (dbFail : Bool)
  | captureFail
  | transcribe (rid : Nat) (ffmpegOk : Bool)
      (whisper : Option (String × List WhisperSegment))
  | summarize (rid : Nat) (gpt : Option String)
  | deleteRec (rid : Nat) (dbFail : Bool)
  | getRec (rid : Nat)
  | searchQ (query : Option String)

/-- Effect of one operation on the process state. -/
def step (st : SysState) : Op → SysState
  | .start fid fname subj dbFail nd nt =>
      (start_recording st fid fname subj dbFail nd nt).2
  | .stop => (stop_recording st).2
  | .captureSetPath p => capture_set_video_path st p
  | .captureFinish rid vp dur et dbFail =>
      capture_loop_finish st rid vp dur et dbFail
  | .captureFail => capture_loop_fail st
  | .transcribe rid f w => (transcribe_recording st rid f w).2
  | .summarize rid g => (summarize_lecture st rid g).2
  | .deleteRec rid dbFail => (delete_recording st rid dbFail).2
  | .getRec rid => (get_recording st rid).2
  | .searchQ q => (search_lectures st q).2

/-- Execution of a sequence of operations. -/
def run (ops : List Op) (st : SysState) : SysState := ops.foldl step st

/-- Projection of the HTTP status code of a response. -/
def ApiResult.code {α : Type} : ApiResult α → Nat
  | .ok c _ => c
  | .err c _ => c

/-- Fixture: the in-memory session of an active recording. -/
def sess1 : RecordingSession :=
  { recording_id := some 1, faculty_id := "7", subject := "Algebra",
    start_time := 0, video_path := none, audio_path := none }

/-- Fixture: a freshly created row, still in status `recording`, with no
video path yet. -/
def rec1 : Recording :=
  { id := 1, faculty_id := "7", faculty_name := some "Alice",
    subject := "Algebra", date := 10, start_time := 0, end_time := none,
    duration := none, status := "recording", video_path := none,
    transcript_path := none, transcript_text := none, summary := none,
    key_points := none }

/-- Fixture: a process state with an active recording of `rec1`. -/
def activeState : SysState :=
  { recording_active := true, current_recording := some sess1,
    db := { recordings := [rec1], transcripts := [], nextId := 2 },
    fs := [] }

/-- Fixture: a completed row whose video file is missing from disk. -/
def rec2 : Recording :=
  { id := 2, faculty_id := "7", faculty_name := some "Alice",
    subject := "Physics", date := 11, start_time := 0, end_time := some 60,
    duration := some 60, status := "completed",
    video_path := some "recordings/2.mp4", transcript_path := none,
    transcript_text := some "hello world", summary := none,
    key_points := none }

/-- Fixture: an idle process whose database has `rec2` and whose disk has
no files. -/
def doneState : SysState :=
  { recording_active := false, current_recording := none,
    db := { recordings := [rec2], transcripts := [], nextId := 3 },
    fs := [] }

/-- C1: whenever a recording is active, `start_recording` answers the
conflict error (HTTP 400, `Recording already in progress`) and the state
— active session, active flag and persisted recordings — is exactly the
pre-state, for every request body and every database-oracle value. -/
theorem claim_C1 (st : SysState) (faculty_id faculty_name subject : Option String)
    (dbFail : Bool) (nd nt : Nat) (h : st.recording_active = true) :
    start_recording st faculty_id faculty_name subject dbFail nd nt =
      (.err 400 "Recording already in progress", st) := by
  unfold start_recording
  rw [if_pos h]

/-- Witness for C1 at a concrete active state. -/
theorem claim_C1_witness :
    start_recording activeState (some "8") none (some "Physics") false 1 1 =
      (.err 400 "Recording already in progress", activeState) :=
  claim_C1 activeState (some "8") none (some "Physics") false 1 1 rfl

/-- C2: `stop_recording` fails with HTTP 400 and leaves the state intact
when no recording is active; when one is active it answers 200 with the
current session id and the shared active flag is false in the post
state. -/
theorem claim_C2 (st : SysState) :
    (st.recording_active = false →
      stop_recording st = (.err 400 "No active recording", st)) ∧
    (st.recording_active = true →
      (stop_recording st).1 =
        .ok 200 (st.current_recording.bind (fun s => s.recording_id)) ∧
      (stop_recording st).2.recording_active = false) := by
  constructor
  · intro h
    simp [stop_recording, h]
  · intro h
    simp [stop_recording, h]

/-- Witness for C2: the inactive branch at the initial state and the
active branch at a concrete active state. -/
theorem claim_C2_witness :
    stop_recording initState = (.err 400 "No active recording", initState) ∧
    (stop_recording activeState).1 = .ok 200 (some 1) ∧
    (stop_recording activeState).2.recording_active = false := by
  refine ⟨(claim_C2 initState).1 rfl, ?_, ((claim_C2 activeState).2 rfl).2⟩
  rw [((claim_C2 activeState).2 rfl).1]
  rfl

/-- C4: for an existing recording whose `transcript_text` is `NULL` or
empty (Python falsy), `summarize_lecture` answers the precondition error
(HTTP 400) and the whole state — in particular every persisted field —
is unchanged, for every GPT oracle value. -/
theorem claim_C4 (st : SysState) (rid : Nat) (recd : Recording)
    (gpt : Option String)
    (hget : Database.get_recording st.db rid = some recd)
    (htxt : truthyStr recd.transcript_text = false) :
    summarize_lecture st rid gpt =
      (.err 400 "Transcript not available. Please transcribe first.", st) := by
  unfold summarize_lecture
  rw [hget]
  simp [htxt]

/-- Witness for C4: `rec1` has no transcript text. -/
theorem claim_C4_witness :
    summarize_lecture activeState 1 (some "Summary") =
      (.err 400 "Transcript not available. Please transcribe first.", activeState) :=
  claim_C4 activeState 1 rec1 (some "Summary") (by decide) rfl

/-- C5 (amended): `transcribe_recording` answers 404 when the id does not
exist and 404 when `video_path` is set but the file is absent; when
`video_path` was never set (row still in `recording` status) the Python
code raises `TypeError` inside `os.path.exists(None)` and the generic
handler answers HTTP 500, not 404.  In all three cases the state is
unchanged, so no transcript data is written. -/
theorem claim_C5 (st : SysState) (rid : Nat) (ffmpegOk : Bool)
    (whisper : Option (String × List WhisperSegment)) :
    (Database.get_recording st.db rid = none →
      transcribe_recording st rid ffmpegOk whisper =
        (.err 404 "Recording not found", st)) ∧
    (∀ recd, Database.get_recording st.db rid = some recd →
      recd.video_path = none →
      transcribe_recording st rid ffmpegOk whisper =
        (.err 500 "stat: path should be string, bytes, os.PathLike or integer, not NoneType", st)) ∧
    (∀ recd vp, Database.get_recording st.db rid = some recd →
      recd.video_path = some vp → st.fs.contains vp = false →
      transcribe_recording st rid ffmpegOk whisper =
        (.err 404 "Video file not found", st)) := by
  refine ⟨fun h => ?_, fun recd h hv => ?_, fun recd vp h hv hc => ?_⟩
  · unfold transcribe_recording
    rw [h]
  · unfold transcribe_recording
    rw [h]
    simp [hv]
  · have hmem : vp ∉ st.fs := by simpa using hc
    unfold transcribe_recording
    rw [h]
    simp [hv, hmem]

/-- Witness for C5 at three concrete states: unknown id, unset video
path, and set-but-missing video file. -/
theorem claim_C5_witness :
    transcribe_recording initState 1 true none =
      (.err 404 "Recording not found", initState) ∧
    transcribe_recording activeState 1 true none =
      (.err 500 "stat: path should be string, bytes, os.PathLike or integer, not NoneType", activeState) ∧
    transcribe_recording doneState 2 true none =
      (.err 404 "Video file not found", doneState) :=
  ⟨(claim_C5 initState 1 true none).1 rfl,
   (claim_C5 activeState 1 true none).2.1 rec1 (by decide) rfl,
   (claim_C5 doneState 2 true none).2.2 rec2 "recordings/2.mp4" (by decide) rfl rfl⟩

/-- Counterexample to C5 as stated: `rec1` exists, its `video_path` is
unset and hence references no existing file, yet the response code is
500 — not the claimed 404. -/
theorem claim_C5_cex :
    Database.get_recording activeState.db 1 = some rec1 ∧
    rec1.video_path = none ∧
    (transcribe_recording activeState 1 true none).1.code = 500 ∧
    (transcribe_recording activeState 1 true none).1.code ≠ 404 := by
  decide

/-- C10: when the database insert fails (the swallowed exception makes
`create_recording` return `None`), a valid start request on an idle
process still succeeds with HTTP 200 and `recording_id = None`: the
session is constructed with a null id, the active flag is set and the
database is untouched. -/
theorem claim_C10 (st : SysState) (fid : String) (fname : Option String)
    (subj : String) (nd nt : Nat) (hact : st.recording_active = false)
    (hfid : fid ≠ "") (hsub : subj ≠ "") :
    start_recording st (some fid) fname (some subj) true nd nt =
      (.ok 200 none,
        { st with
            current_recording := some
              { recording_id := none, faculty_id := fid, subject := subj,
                start_time := nt, video_path := none, audio_path := none },
            recording_active := true }) := by
  unfold start_recording
  simp [hact, truthyStr, hfid, hsub, Database.create_recording]

/-- Witness for C10 on the initial state. -/
theorem claim_C10_witness :
    start_recording initState (some "7") (some "Alice") (some "Algebra") true 3 4 =
      (.ok 200 none,
        { initState with
            current_recording := some
              { recording_id := none, faculty_id := "7", subject := "Algebra",
                start_time := 4, video_path := none, audio_path := none },
            recording_active := true }) :=
  claim_C10 initState "7" (some "Alice") "Algebra" 3 4 rfl
    (by decide) (by decide)

/-- Removing a file (or skipping the removal) never adds files. -/
theorem mem_removeIfExists {fs : List String} {o : Option String} {x : String}
    (h : x ∈ removeIfExists fs o) : x ∈ fs := by
  cases o with
  | none => simpa [removeIfExists] using h
  | some q =>
    simp only [removeIfExists] at h
    split at h
    · exact (List.mem_filter.mp h).1
    · exact h

/-- After `removeIfExists fs (some p)` the path `p` is gone whenever `p`
is a real (non-empty) path: either it was filtered out, or it was not in
`fs` to begin with. -/
theorem not_mem_removeIfExists_self {fs : List String} {p : String}
    (hne : p ≠ "") : p ∉ removeIfExists fs (some p) := by
  simp only [removeIfExists]
  split
  · intro hx
    simpa using (List.mem_filter.mp hx).2
  · next hcond =>
    intro hx
    apply hcond
    simp [hne, List.elem_iff, hx]

/-- C6: deleting an existing recording answers 200, removes every
`recordings` row and every `transcripts` row with that id, removes the
video and transcript files when their paths are set and the files exist,
and a subsequent fetch of that id answers 404.  The hypothesis `hfs`
states that the modelled disk carries no file with the empty name, which
is true of every real filesystem. -/
theorem claim_C6 (st : SysState) (rid : Nat) (recd : Recording)
    (hget : Database.get_recording st.db rid = some recd)
    (hfs : ("" : String) ∉ st.fs) :
    (delete_recording st rid false).1 = .ok 200 "Recording deleted successfully" ∧
    (∀ r ∈ (delete_recording st rid false).2.db.recordings, r.id ≠ rid) ∧
    (∀ t ∈ (delete_recording st rid false).2.db.transcripts, t.recording_id ≠ rid) ∧
    (∀ p, recd.video_path = some p → p ∈ st.fs →
      p ∉ (delete_recording st rid false).2.fs) ∧
    (∀ p, recd.transcript_path = some p → p ∈ st.fs →
      p ∉ (delete_recording st rid false).2.fs) ∧
    Database.get_recording (delete_recording st rid false).2.db rid = none ∧
    (get_recording (delete_recording st rid false).2 rid).1 =
      .err 404 "Recording not found" := by
  have hd : delete_recording st rid false =
      (.ok 200 "Recording deleted successfully",
        { st with
            fs := removeIfExists (removeIfExists st.fs recd.video_path)
              recd.transcript_path,
            db := { st.db with
                      transcripts := st.db.transcripts.filter
                        (fun t => !(t.recording_id == rid)),
                      recordings := st.db.recordings.filter
                        (fun r => !(r.id == rid)) } }) := by
    unfold delete_recording Database.delete_recording
    rw [hget]
    rfl
  rw [hd]
  have hrecs : ∀ r ∈ st.db.recordings.filter (fun r => !(r.id == rid)),
      r.id ≠ rid := by
    intro r hr
    simpa using (List.mem_filter.mp hr).2
  have hnone : (st.db.recordings.filter (fun r => !(r.id == rid))).find?
      (fun r => r.id == rid) = none := by
    rw [List.find?_eq_none]
    intro r hr
    simpa using hrecs r hr
  refine ⟨rfl, hrecs, ?_, ?_, ?_, hnone, ?_⟩
  · intro t ht
    simpa using (List.mem_filter.mp ht).2
  · intro p hp hmem hx
    have hne : p ≠ "" := fun he => hfs (he ▸ hmem)
    rw [hp] at hx
    exact not_mem_removeIfExists_self hne (mem_removeIfExists hx)
  · intro p hp hmem hx
    have hne : p ≠ "" := fun he => hfs (he ▸ hmem)
    rw [hp] at hx
    exact not_mem_removeIfExists_self hne hx
  · unfold get_recording Database.get_recording
    rw [hnone]

/-- Fixture: a fully processed row whose video and transcript files both
exist on disk. -/
def rec3 : Recording :=
  { id := 3, faculty_id := "9", faculty_name := some "Bob",
    subject := "Chemistry", date := 12, start_time := 0, end_time := some 90,
    duration := some 90, status := "completed",
    video_path := some "recordings/3.mp4",
    transcript_path := some "transcripts/transcript_3.txt",
    transcript_text := some "lecture text", summary := some "a summary",
    key_points := some ["point"] }

/-- Fixture: one transcript segment of `rec3`. -/
def seg3 : TranscriptSegment :=
  { recording_id := 3, timestamp_start := 0, timestamp_end := 4,
    text := "hello", confidence := 9/10 }

/-- Fixture: idle process holding `rec3`, its segment and its two files. -/
def fullState : SysState :=
  { recording_active := false, current_recording := none,
    db := { recordings := [rec3], transcripts := [seg3], nextId := 4 },
    fs := ["recordings/3.mp4", "transcripts/transcript_3.txt"] }

/-- Witness for C6 on `fullState`: the row is gone, the fetch is 404 and
the video file was removed from disk. -/
theorem claim_C6_witness :
    Database.get_recording (delete_recording fullState 3 false).2.db 3 = none ∧
    ("recordings/3.mp4" ∉ (delete_recording fullState 3 false).2.fs) ∧
    (get_recording (delete_recording fullState 3 false).2 3).1 =
      .err 404 "Recording not found" :=
  ⟨(claim_C6 fullState 3 rec3 (by decide) (by decide)).2.2.2.2.2.1,
   (claim_C6 fullState 3 rec3 (by decide) (by decide)).2.2.2.1
     "recordings/3.mp4" rfl (by decide),
   (claim_C6 fullState 3 rec3 (by decide) (by decide)).2.2.2.2.2.2⟩

/-- Segment row built from one inserted (start, end, text, confidence)
tuple. -/
def mkSeg (rid : Nat) (p : Nat × Nat × String × ℚ) : TranscriptSegment :=
  { recording_id := rid, timestamp_start := p.1, timestamp_end := p.2.1,
    text := p.2.2.1, confidence := p.2.2.2 }

/-- Successive `add_transcript_segment` calls for one recording, as the
transcription loop performs them (backend lines 227-234). -/
def insertAll (db : DBState) (rid : Nat)
    (L : List (Nat × Nat × String × ℚ)) : DBState :=
  L.foldl (fun d p =>
    (Database.add_transcript_segment d rid p.1 p.2.1 p.2.2.1 p.2.2.2 false).2) db

/-- Each insert appends one row to the `transcripts` table. -/
theorem insertAll_transcripts (rid : Nat) :
    ∀ (L : List (Nat × Nat × String × ℚ)) (db : DBState),
      (insertAll db rid L).transcripts = db.transcripts ++ L.map (mkSeg rid) := by
  intro L
  induction L with
  | nil => intro db; simp [insertAll]
  | cons p L ih =>
    intro db
    have hstep : insertAll db rid (p :: L) =
        insertAll { db with transcripts := db.transcripts ++ [mkSeg rid p] } rid L := by
      simp [insertAll, Database.add_transcript_segment, mkSeg]
    rw [hstep, ih]
    simp

/-- The rows returned for a recording after inserting its segments are
exactly the previous rows plus the inserted ones, in insertion order. -/
theorem segsFor_insertAll (db : DBState) (rid : Nat)
    (L : List (Nat × Nat × String × ℚ)) :
    Database.segsFor (insertAll db rid L) rid =
      Database.segsFor db rid ++ L.map (mkSeg rid) := by
  unfold Database.segsFor
  rw [insertAll_transcripts, List.filter_append]
  congr 1
  rw [List.filter_eq_self]
  intro s hs
  rw [List.mem_map] at hs
  obtain ⟨p, _, rfl⟩ := hs
  simp [mkSeg]

/-- C8: after inserting any list of (start, end) segment tuples for a
recording, querying that recording's transcript segments returns exactly
the previously stored plus the inserted rows (as a permutation) and the
returned list is ordered by start time ascending. -/
theorem claim_C8 (db : DBState) (rid : Nat)
    (L : List (Nat × Nat × String × ℚ)) :
    (Database.get_transcript_segments (insertAll db rid L) rid).Perm
      (Database.segsFor db rid ++ L.map (mkSeg rid)) ∧
    List.Sorted segLE (Database.get_transcript_segments (insertAll db rid L) rid) := by
  constructor
  · unfold Database.get_transcript_segments
    rw [segsFor_insertAll]
    exact List.perm_insertionSort segLE _
  · exact List.sorted_insertionSort segLE _

/-- Invariant for C3: every persisted row has status `recording` or
`completed` — in particular never `failed`. -/
def StatusOK (db : DBState) : Prop :=
  ∀ r ∈ db.recordings, r.status = "recording" ∨ r.status = "completed"

/-- `StatusOK` only looks at the `recordings` table. -/
theorem statusOK_of_recordings_eq {db db' : DBState}
    (he : db'.recordings = db.recordings) (h : StatusOK db) : StatusOK db' :=
  fun r hr => h r (he ▸ hr)

/-- Creating a row writes status `recording`. -/
theorem statusOK_create (db : DBState) (a : String) (b : Option String)
    (c : String) (d e : Nat) (f : Bool) (h : StatusOK db) :
    StatusOK (Database.create_recording db a b c d e f).2 := by
  unfold Database.create_recording
  split
  · exact h
  · intro r hr
    simp only [List.mem_append, List.mem_singleton] at hr
    rcases hr with h1 | rfl
    · exact h r h1
    · left; rfl

/-- The capture loop only ever writes status `completed`. -/
theorem statusOK_update_status (db : DBState) (rid : Nat) (vp : String)
    (dur et : Nat) (f : Bool) (h : StatusOK db) :
    StatusOK (Database.update_recording_status db rid "completed" vp dur et f).2 := by
  unfold Database.update_recording_status
  split
  · exact h
  · intro r hr
    simp only [List.mem_map] at hr
    obtain ⟨r0, h0, heq⟩ := hr
    split at heq
    · rw [← heq]; right; rfl
    · rw [← heq]; exact h r0 h0

/-- Storing a transcript does not touch the status column. -/
theorem statusOK_update_transcript (db : DBState) (rid : Nat)
    (tp tt : String) (f : Bool) (h : StatusOK db) :
    StatusOK (Database.update_recording_transcript db rid tp tt f).2 := by
  unfold Database.update_recording_transcript
  split
  · exact h
  · intro r hr
    simp only [List.mem_map] at hr
    obtain ⟨r0, h0, heq⟩ := hr
    split at heq
    · rw [← heq]; exact h r0 h0
    · rw [← heq]; exact h r0 h0

/-- Storing a summary does not touch the status column. -/
theorem statusOK_update_summary (db : DBState) (rid : Nat) (s : String)
    (kp : List String) (f : Bool) (h : StatusOK db) :
    StatusOK (Database.update_recording_summary db rid s kp f).2 := by
  unfold Database.update_recording_summary
  split
  · exact h
  · intro r hr
    simp only [List.mem_map] at hr
    obtain ⟨r0, h0, heq⟩ := hr
    split at heq
    · rw [← heq]; exact h r0 h0
    · rw [← heq]; exact h r0 h0

/-- Deleting rows cannot introduce a new status. -/
theorem statusOK_delete (db : DBState) (rid : Nat) (f : Bool)
    (h : StatusOK db) : StatusOK (Database.delete_recording db rid f).2 := by
  unfold Database.delete_recording
  split
  · exact h
  · intro r hr
    exact h r (List.mem_filter.mp hr).1

/-- The transcription loop's segment inserts never touch `recordings`. -/
theorem foldl_addSeg_recordings (rid : Nat) :
    ∀ (segs : List WhisperSegment) (db : DBState),
      (segs.foldl (fun d sg =>
        (Database.add_transcript_segment d rid sg.seg_start sg.seg_end
          sg.text (sg.confidence.getD (9/10)) false).2) db).recordings =
        db.recordings := by
  intro segs
  induction segs with
  | nil => intro db; rfl
  | cons sg segs ih =>
    intro db
    rw [List.foldl_cons, ih]
    rfl

/-- Every operation of the system preserves `StatusOK`: the value
`failed` is never written. -/
theorem statusOK_step (st : SysState) (op : Op) (h : StatusOK st.db) :
    StatusOK (step st op).db := by
  cases op with
  | start fid fname subj dbFail nd nt =>
    simp only [step]
    unfold start_recording
    split
    · exact h
    · split
      · exact h
      · exact statusOK_create st.db _ _ _ _ _ _ h
  | stop =>
    simp only [step]
    unfold stop_recording
    split
    · exact h
    · exact h
  | captureSetPath p =>
    simp only [step]
    unfold capture_set_video_path
    split
    · exact h
    · exact h
  | captureFinish rid vp dur et dbFail =>
    simp only [step]
    unfold capture_loop_finish
    exact statusOK_update_status st.db _ _ _ _ _ h
  | captureFail =>
    simp only [step]
    exact h
  | transcribe rid f w =>
    simp only [step]
    unfold transcribe_recording
    split
    · exact h
    · split
      · exact h
      · split
        · exact h
        · split
          · exact h
          · split
            · exact h
            · exact statusOK_update_transcript _ _ _ _ _
                (statusOK_of_recordings_eq (foldl_addSeg_recordings rid _ st.db) h)
  | summarize rid g =>
    simp only [step]
    unfold summarize_lecture
    split
    · exact h
    · split
      · exact h
      · split
        · exact h
        · exact statusOK_update_summary st.db _ _ _ _ h
  | deleteRec rid dbFail =>
    simp only [step]
    unfold delete_recording
    split
    · exact h
    · exact statusOK_delete st.db _ _ h
  | getRec rid =>
    simp only [step]
    unfold get_recording
    split
    · exact h
    · exact h
  | searchQ q =>
    simp only [step]
    unfold search_lectures
    split
    · exact h
    · exact h

/-- `StatusOK` holds along every execution. -/
theorem run_statusOK (ops : List Op) :
    ∀ st : SysState, StatusOK st.db → StatusOK (run ops st).db := by
  induction ops with
  | nil => intro st h; exact h
  | cons op ops ih => intro st h; exact ih (step st op) (statusOK_step st op h)

/-- C3: in every reachable state every persisted recording has status
`recording` or `completed` — the value `failed` is never written by any
operation; and the capture loop's exception path only clears the active
flag, leaving the whole database (hence the row's `recording` status)
untouched. -/
theorem claim_C3 (ops : List Op) :
    (∀ r ∈ (run ops initState).db.recordings,
      r.status = "recording" ∨ r.status = "completed") ∧
    (∀ st : SysState,
      step st Op.captureFail = { st with recording_active := false }) := by
  constructor
  · exact run_statusOK ops initState (by intro r hr; simp [initState] at hr)
  · intro st; rfl

/-- Invariant for C9 that the code actually maintains: whenever the
active flag is set, the session reference is set. -/
def ActiveOk (st : SysState) : Prop :=
  st.recording_active = true → st.current_recording.isSome = true

/-- Every operation preserves `ActiveOk`. -/
theorem activeOk_step (st : SysState) (op : Op) (h : ActiveOk st) :
    ActiveOk (step st op) := by
  cases op with
  | start fid fname subj dbFail nd nt =>
    simp only [step]
    unfold start_recording
    split
    · exact h
    · split
      · exact h
      · intro _; rfl
  | stop =>
    simp only [step]
    unfold stop_recording
    split
    · exact h
    · intro hx; exact absurd hx (by simp)
  | captureSetPath p =>
    simp only [step]
    unfold capture_set_video_path
    split
    · intro hx; exact absurd hx (by simp)
    · intro _; rfl
  | captureFinish rid vp dur et dbFail =>
    simp only [step]
    exact h
  | captureFail =>
    simp only [step]
    intro hx; exact absurd hx (by simp [capture_loop_fail])
  | transcribe rid f w =>
    simp only [step]
    unfold transcribe_recording
    split
    · exact h
    · split
      · exact h
      · split
        · exact h
        · split
          · exact h
          · split
            · exact h
            · exact h
  | summarize rid g =>
    simp only [step]
    unfold summarize_lecture
    split
    · exact h
    · split
      · exact h
      · split
        · exact h
        · exact h
  | deleteRec rid dbFail =>
    simp only [step]
    unfold delete_recording
    split
    · exact h
    · exact h
  | getRec rid =>
    simp only [step]
    unfold get_recording
    split
    · exact h
    · exact h
  | searchQ q =>
    simp only [step]
    unfold search_lectures
    split
    · exact h
    · exact h

/-- `ActiveOk` holds along every execution. -/
theorem run_activeOk (ops : List Op) :
    ∀ st : SysState, ActiveOk st → ActiveOk (run ops st) := by
  induction ops with
  | nil => intro st h; exact h
  | cons op ops ih => intro st h; exact ih (step st op) (activeOk_step st op h)

/-- C9 (amended): in every reachable state the active flag being set
implies the session reference is set, and there is at most one session
(a single `Option` cell); but stopping never discards the session — the
reference survives `stop_recording` unchanged, so the claimed
"session set iff flag set" fails after a stop. -/
theorem claim_C9 (ops : List Op) :
    ((run ops initState).recording_active = true →
      (run ops initState).current_recording.isSome = true) ∧
    (∀ st : SysState,
      (step st Op.stop).current_recording = st.current_recording) := by
  constructor
  · exact run_activeOk ops initState (fun hx => absurd hx (by simp [initState]))
  · intro st
    simp only [step]
    unfold stop_recording
    split
    · rfl
    · rfl

/-- Witness for C9 at a concrete execution reaching an active state. -/
theorem claim_C9_witness :
    (run [Op.start (some "7") (some "Alice") (some "Algebra") false 3 4]
      initState).current_recording.isSome = true :=
  (claim_C9 [Op.start (some "7") (some "Alice") (some "Algebra") false 3 4]).1
    (by decide)

/-- Counterexample to C9 as stated: after a successful start followed by
a successful stop the process is quiescent, the active flag is false,
yet the session reference is still set — the session is not discarded,
falsifying "session set iff flag set". -/
theorem claim_C9_cex :
    (run [Op.start (some "7") (some "Alice") (some "Algebra") false 3 4, Op.stop]
      initState).recording_active = false ∧
    (run [Op.start (some "7") (some "Alice") (some "Algebra") false 3 4, Op.stop]
      initState).current_recording.isSome = true := by
  decide

/-- Case-insensitive substring occurrence — the spec's reading of one
search disjunct. -/
def SubstrCI (q s : String) : Prop :=
  q.data.map Char.toLower <:+: s.data.map Char.toLower

instance (q s : String) : Decidable (SubstrCI q s) :=
  inferInstanceAs (Decidable (q.data.map Char.toLower <:+: s.data.map Char.toLower))

/-- The spec disjunct on a nullable column. -/
def optSubstrCI (q : String) : Option String → Prop
  | none => False
  | some s => SubstrCI q s

instance (q : String) : (o : Option String) → Decidable (optSubstrCI q o)
  | none => isFalse (fun h => h)
  | some s => inferInstanceAs (Decidable (SubstrCI q s))

/-- The claim's match predicate: the query occurs as a case-insensitive
substring of the subject, the summary, the transcript text or some
segment text of the recording. -/
def specMatches (db : DBState) (q : String) (r : Recording) : Prop :=
  SubstrCI q r.subject ∨ optSubstrCI q r.summary ∨
    optSubstrCI q r.transcript_text ∨
    ∃ t ∈ Database.segsFor db r.id, SubstrCI q t.text

instance (db : DBState) (q : String) (r : Recording) :
    Decidable (specMatches db q r) := by
  unfold specMatches
  infer_instance

/-- What the claim says the search returns: exactly the matching
recordings, ordered by date descending, capped at 20. -/
def specSearch (db : DBState) (q : String) : List Recording :=
  (List.insertionSort dateGE
    (db.recordings.filter (fun r => decide (specMatches db q r)))).take 20

/-- Queries free of the SQL pattern metacharacters `%`, `_` and `\`
(checked on the lower-cased query; lower-casing a character never turns
it into, or away from, one of these three). -/
def LitQuery (q : String) : Prop :=
  ∀ c ∈ q.data.map Char.toLower, c ≠ '%' ∧ c ≠ '_' ∧ c ≠ '\\'

instance (q : String) : Decidable (LitQuery q) := by
  unfold LitQuery
  infer_instance

/-- A one-character `%` pattern matches every string. -/
theorem likeMatches_single_pct (s : List Char) : likeMatches ['%'] s = true := by
  simp [likeMatches]

/-- Unfolding for a `%` pattern head with a non-empty remainder. -/
theorem likeMatches_pct_head (rest : List Char) (hrest : rest ≠ [])
    (s : List Char) :
    likeMatches ('%' :: rest) s = s.tails.any (fun t => likeMatches rest t) := by
  cases rest with
  | nil => exact absurd rfl hrest
  | cons b rest' =>
    simp [likeMatches]

/-- Unfolding for a literal pattern head with a non-empty remainder. -/
theorem likeMatches_cons_lit (a : Char) (rest : List Char) (hrest : rest ≠ [])
    (h1 : a ≠ '%') (h2 : a ≠ '_') (h3 : a ≠ '\\') (s : List Char) :
    likeMatches (a :: rest) s =
      (match s with
       | [] => false
       | d :: s' => a == d && likeMatches rest s') := by
  cases rest with
  | nil => exact absurd rfl hrest
  | cons b rest' =>
    simp only [likeMatches]
    rw [if_neg h1, if_neg h2, if_neg h3]

/-- A literal pattern followed by a trailing `%` matches exactly the
strings with that literal prefix. -/
theorem likeMatches_lit_pct (qs : List Char)
    (hq : ∀ c ∈ qs, c ≠ '%' ∧ c ≠ '_' ∧ c ≠ '\\') :
    ∀ t : List Char, likeMatches (qs ++ ['%']) t = true ↔ qs <+: t := by
  induction qs with
  | nil =>
    intro t
    simp only [List.nil_append, likeMatches_single_pct, true_iff]
    exact List.nil_prefix
  | cons a qs ih =>
    intro t
    have ha := hq a (List.mem_cons_self a qs)
    have hq' : ∀ c ∈ qs, c ≠ '%' ∧ c ≠ '_' ∧ c ≠ '\\' :=
      fun c hc => hq c (List.mem_cons_of_mem a hc)
    rw [List.cons_append,
      likeMatches_cons_lit a (qs ++ ['%']) (by simp) ha.1 ha.2.1 ha.2.2]
    cases t with
    | nil =>
      simp
    | cons d t' =>
      simp [Bool.and_eq_true, beq_iff_eq, ih hq' t', List.cons_prefix_cons]

/-- A `'%' ++ literal ++ '%'` pattern matches exactly the strings with
that literal infix. -/
theorem likeMatches_pct_iff (qs : List Char)
    (hq : ∀ c ∈ qs, c ≠ '%' ∧ c ≠ '_' ∧ c ≠ '\\') (s : List Char) :
    likeMatches ('%' :: (qs ++ ['%'])) s = true ↔ qs <:+: s := by
  rw [likeMatches_pct_head _ (by simp) s, List.any_eq_true]
  constructor
  · rintro ⟨t, ht, hm⟩
    exact List.infix_iff_prefix_suffix.mpr
      ⟨t, (likeMatches_lit_pct qs hq t).mp hm, (List.mem_tails t s).mp ht⟩
  · intro h
    obtain ⟨t, hpre, hsuf⟩ := List.infix_iff_prefix_suffix.mp h
    exact ⟨t, (List.mem_tails t s).mpr hsuf, (likeMatches_lit_pct qs hq t).mpr hpre⟩

/-- On wildcard-free queries the `ILIKE '%q%'` condition is exactly
case-insensitive substring occurrence. -/
theorem ilikeContains_iff (s q : String) (hq : LitQuery q) :
    ilikeContains s q = true ↔ SubstrCI q s := by
  unfold ilikeContains SubstrCI
  exact likeMatches_pct_iff (q.data.map Char.toLower) hq (s.data.map Char.toLower)

/-- `ILIKE` on a nullable column versus the spec disjunct. -/
theorem optIlike_iff (o : Option String) (q : String) (hq : LitQuery q) :
    optIlike o q = true ↔ optSubstrCI q o := by
  cases o with
  | none => simp [optIlike, optSubstrCI]
  | some s => simp [optIlike, optSubstrCI, ilikeContains_iff s q hq]

/-- Two booleans agreeing as propositions are equal. -/
theorem bool_eq_of_iff {a b : Bool} (h : a = true ↔ b = true) : a = b := by
  cases a <;> cases b <;> simp_all

/-- A constant disjunct distributes out of `any` over a non-empty list. -/
theorem any_or_const {α : Type} (b : Bool) (f : α → Bool) (l : List α)
    (hl : l ≠ []) : l.any (fun x => b || f x) = (b || l.any f) := by
  cases b
  · simp
  · cases l with
    | nil => exact absurd rfl hl
    | cons x xs => simp

/-- `any` over a mapped list. -/
theorem list_any_map {α β : Type} (f : α → β) (p : β → Bool) :
    ∀ l : List α, (l.map f).any p = l.any (fun x => p (f x)) := by
  intro l
  induction l with
  | nil => rfl
  | cons x xs ih => simp [ih]

/-- The join-row disjunction of the SQL query, collapsed per recording:
the three row-independent disjuncts factor out of the left join, and the
fourth becomes a disjunction over the recording's own segments. -/
theorem joinRows_any_eq (db : DBState) (q : String) (r : Recording) :
    (Database.joinRows db r).any (Database.rowMatches q r) =
      (ilikeContains r.subject q || optIlike r.summary q ||
        optIlike r.transcript_text q ||
        (Database.segsFor db r.id).any (fun t => ilikeContains t.text q)) := by
  unfold Database.joinRows
  cases hs : Database.segsFor db r.id with
  | nil => simp [Database.rowMatches]
  | cons s ss =>
    rw [if_neg (by simp), list_any_map]
    have hc : (fun t : TranscriptSegment => Database.rowMatches q r (some t)) =
        fun t : TranscriptSegment =>
        ((ilikeContains r.subject q || optIlike r.summary q ||
          optIlike r.transcript_text q) || ilikeContains t.text q) := rfl
    rw [hc, any_or_const _ _ _ (List.cons_ne_nil s ss)]

/-- For wildcard-free queries the SQL row filter coincides with the
claim's predicate. -/
theorem rowFilter_eq_spec (db : DBState) (q : String) (hq : LitQuery q)
    (r : Recording) :
    (Database.joinRows db r).any (Database.rowMatches q r) =
      decide (specMatches db q r) := by
  apply bool_eq_of_iff
  rw [joinRows_any_eq, decide_eq_true_eq]
  unfold specMatches
  simp only [Bool.or_eq_true, List.any_eq_true, or_assoc]
  rw [ilikeContains_iff _ _ hq, optIlike_iff _ _ hq, optIlike_iff _ _ hq]
  refine or_congr Iff.rfl (or_congr Iff.rfl (or_congr Iff.rfl ?_))
  exact exists_congr fun t =>
    and_congr_right fun _ => ilikeContains_iff _ _ hq

/-- The SQL search equals the spec-side search on wildcard-free
queries. -/
theorem search_eq_spec (db : DBState) (q : String) (hq : LitQuery q) :
    Database.search_recordings db q = specSearch db q := by
  unfold Database.search_recordings specSearch
  congr 2
  exact List.filter_congr (fun r _ => rowFilter_eq_spec db q hq r)

/-- C7 (amended): for every non-empty query containing none of the SQL
pattern metacharacters `%`, `_`, `\`, the search route returns exactly
the recordings for which the query occurs as a case-insensitive
substring of the subject, the summary, the transcript text or some
segment text, ordered by date descending and capped at the first 20;
the result length never exceeds 20.  (For queries containing a
metacharacter the `ILIKE` pattern is not a substring test — see the
counterexample.) -/
theorem claim_C7 (st : SysState) (q : String) (hne : q ≠ "")
    (hq : LitQuery q) :
    search_lectures st (some q) =
      (.ok 200 (Database.search_recordings st.db q), st) ∧
    Database.search_recordings st.db q = specSearch st.db q ∧
    (Database.search_recordings st.db q).length ≤ 20 ∧
    List.Sorted dateGE (Database.search_recordings st.db q) := by
  refine ⟨?_, search_eq_spec st.db q hq, ?_, ?_⟩
  · unfold search_lectures
    rw [if_neg (by simpa using hne)]
    rfl
  · unfold Database.search_recordings
    exact List.length_take_le 20 _
  · unfold Database.search_recordings
    exact List.Pairwise.sublist (List.take_sublist 20 _)
      (List.sorted_insertionSort dateGE _)

/-- Fixture: a recording whose summary alone contains the word Gauss. -/
def wrecA : Recording :=
  { id := 30, faculty_id := "2", faculty_name := some "Carol",
    subject := "Algebra", date := 20, start_time := 0, end_time := some 50,
    duration := some 50, status := "completed",
    video_path := some "recordings/30.mp4", transcript_path := none,
    transcript_text := some "today we add numbers",
    summary := some "The Gauss trick for sums", key_points := none }

/-- Fixture: a recording mentioning Gauss nowhere. -/
def wrecB : Recording :=
  { id := 31, faculty_id := "2", faculty_name := some "Carol",
    subject := "Biology", date := 21, start_time := 0, end_time := some 40,
    duration := some 40, status := "completed",
    video_path := some "recordings/31.mp4", transcript_path := none,
    transcript_text := some "cells and membranes",
    summary := some "Cell structure", key_points := none }

/-- Fixture: database with the two search recordings. -/
def wdb : DBState :=
  { recordings := [wrecA, wrecB], transcripts := [], nextId := 32 }

/-- Fixture: idle process over `wdb`. -/
def wSearchState : SysState :=
  { recording_active := false, current_recording := none, db := wdb, fs := [] }

/-- Witness for C7 at the concrete query `gauss`, present only in the
summary of `wrecA`: the search returns that recording and no others. -/
theorem claim_C7_witness :
    Database.search_recordings wdb "gauss" = specSearch wdb "gauss" ∧
    (Database.search_recordings wdb "gauss").length ≤ 20 ∧
    Database.search_recordings wdb "gauss" = [wrecA] :=
  ⟨(claim_C7 wSearchState "gauss" (by decide) (by decide)).2.1,
   (claim_C7 wSearchState "gauss" (by decide) (by decide)).2.2.1,
   by decide⟩

/-- Fixture: recording whose subject is `abc`, with no summary, no
transcript text and no segments. -/
def cexRec : Recording :=
  { id := 21, faculty_id := "5", faculty_name := none, subject := "abc",
    date := 7, start_time := 0, end_time := none, duration := none,
    status := "completed", video_path := none, transcript_path := none,
    transcript_text := none, summary := none, key_points := none }

/-- Fixture: database holding only `cexRec`. -/
def cexDb : DBState :=
  { recordings := [cexRec], transcripts := [], nextId := 22 }

/-- Counterexample to C7 as stated: the query `a_c` contains the SQL
wildcard `_`, so `ILIKE` matches the subject `abc` and the search
returns the recording although `a_c` is not a case-insensitive
substring of any of its fields — search is not a pure substring
match. -/
theorem claim_C7_cex :
    Database.search_recordings cexDb "a_c" = [cexRec] ∧
    ¬ SubstrCI "a_c" cexRec.subject ∧
    cexRec.summary = none ∧ cexRec.transcript_text = none ∧
    Database.segsFor cexDb cexRec.id = [] := by
  decide
